import Mathlib

/-!
Shallow embedding of the trustoo-knowledge-base pipeline.

Sources embedded here: src/utils.py (detect_language, translate_text),
src/search_knowledge.py (adjust_score_by_source, the intent-analysis JSON
fallback, and the re-ranking loop of search_and_respond), and
src/process_slack_data.py (process_message, group_messages_by_thread,
process_conversations).

Modelling conventions:
- Python floats are modelled as exact rationals; every numeric literal in
  the source (2.0, 1.75, 1.5, 1.25, 0.3) is exactly representable by the
  rational written here.
- External collaborators (the langdetect `detect` primitive, the chat
  completion calls, the vector-store search) are parameters of the
  embedding: `ld : String → Option String` is the raw language-detect call
  (`none` models LangDetectException), `oracle` is the translation call,
  and the list of search candidates is an input list.
- The regex/JSON based `extract_metadata` is kept abstract as a parameter
  `em : String → Option String` (content to source tag); none of the
  claims settled here depends on its internals, only on where its result
  flows.
- Fallible Python operations (subscripting None, a missing dict key) are
  modelled in the Option monad: `none` is a raised exception.
-/

namespace Trustoo

/-! ## Definitions (shallow embedding of the source) -/

/-- Is the first character list a leading segment of the second. -/
def isPrefCh : List Char → List Char → Bool
  | [], _ => true
  | _ :: _, [] => false
  | a :: as, b :: bs => a == b && isPrefCh as bs

/-- Naive substring search over character lists. -/
def subSearch (pat : List Char) : List Char → Bool
  | [] => isPrefCh pat []
  | b :: bs => isPrefCh pat (b :: bs) || subSearch pat bs

/-- Models the Python membership test `pat in s` on strings. -/
def pyIn (pat s : String) : Bool :=
  subSearch pat.data s.data

/-- Models Python `str.lower()` (ASCII case folding, which covers every
string the source compares). -/
def pyLower (s : String) : String :=
  ⟨s.data.map Char.toLower⟩

/-- Models Python `str(x)` on an optional string: `str(None)` is the four
character string None. -/
def pyStr : Option String → String
  | none => "None"
  | some s => s

/-- The ASCII whitespace characters stripped by Python `str.strip()`. -/
def pySpace (c : Char) : Bool :=
  c == ' ' || c == '\t' || c == '\n' || c == '\r' || c == '\x0b' || c == '\x0c'

/-- Models Python `str.strip()`. -/
def pyStrip (s : String) : String :=
  ⟨((s.data.dropWhile pySpace).reverse.dropWhile pySpace).reverse⟩

/-- The `lang_map` dict literal of `detect_language` (src/utils.py lines 34-40). -/
def lang_map : List (String × String) :=
  [("nl", "Dutch"), ("de", "German"), ("fr", "French"), ("en", "English"), ("es", "Spanish")]

/-- Models Python `dict.get(key, default)` over an association list of strings. -/
def dictGetStr (d : List (String × String)) (k : String) (dflt : String) : String :=
  ((d.find? (fun p => p.1 == k)).map Prod.snd).getD dflt

/-- `detect_language` (src/utils.py lines 30-43). The raw langdetect call is
the parameter `ld`; `ld text = none` models LangDetectException. -/
def detect_language (ld : String → Option String) (text : String) : String :=
  match ld text with
  | some code => dictGetStr lang_map code "English"
  | none => "English"

/-- `translate_text` (src/utils.py lines 45-63). The second component of the
result records whether the external chat-completion call was issued. -/
def translate_text (ld : String → Option String) (oracle : String → String → String)
    (text target : String) : String × Bool :=
  if text == "" || (pyStrip text).length == 0 then (text, false)
  else if detect_language ld text == target then (text, false)
  else (oracle text target, true)

/-- The `source_multipliers` dict literal (src/search_knowledge.py lines 21-26). -/
def source_multipliers : List (String × ℚ) :=
  [("official_document", 2), ("product-changes", 7/4), ("help", 5/4), ("customer-success", 1)]

/-- Models Python `dict.get(key, default)` where the key may be None. -/
def dictGetQ (d : List (String × ℚ)) (k : Option String) (dflt : ℚ) : ℚ :=
  match k with
  | none => dflt
  | some s => ((d.find? (fun p => p.1 == s)).map Prod.snd).getD dflt

/-- `adjust_score_by_source` (src/search_knowledge.py lines 10-29). -/
def adjust_score_by_source (score : ℚ) (source : Option String)
    (content_str : Option String) (is_reclaim_query : Bool) : ℚ :=
  if is_reclaim_query then
    if pyIn "\"thread_ts\":" (pyStr content_str) then 0
    else score * 2
  else score * dictGetQ source_multipliers source 1

/-- The structured intent descriptor produced by the intent-analysis step
(the four JSON fields of src/search_knowledge.py lines 96-102). -/
structure QueryIntent where
  main_concept : String
  search_query : String
  exclude_terms : List String
  is_reclaim_query : Bool
deriving Repr, DecidableEq

/-- The JSON-parse fallback intent (src/search_knowledge.py lines 136-143). -/
def fallback_intent (q : String) : QueryIntent :=
  { main_concept := q
    search_query := q
    exclude_terms := []
    is_reclaim_query :=
      pyIn "reclaim" (pyLower q) || pyIn "dispute" (pyLower q) || pyIn "chargeback" (pyLower q) }

/-- The try/except around json.loads (src/search_knowledge.py lines 134-143):
`parsed = some a` is a successful parse of the model output, `none` is a
JSONDecodeError, answered by the fallback instead of an exception. -/
def analyze_query (parsed : Option QueryIntent) (q : String) : QueryIntent :=
  match parsed with
  | some a => a
  | none => fallback_intent q

/-- The `requirement_indicators` list literal (src/search_knowledge.py line 162). -/
def requirement_indicators : List String :=
  ["need", "require", "must have", "rules", "criteria", "only if", "mandatory"]

/-- The list-marker literals of the list-shape boost (src/search_knowledge.py line 167). -/
def list_markers : List String :=
  ["1:", "2:", "3:", "4:", ":heavy_check_mark:", "✓", "•", "-"]

/-- One result of `client.vector_stores.search`: the stringified content and
the raw similarity score (src/search_knowledge.py lines 157-159). -/
structure Candidate where
  content : String
  score : ℚ
deriving Repr, DecidableEq

/-- One entry appended to `context` (src/search_knowledge.py lines 181-185).
The slack_link and document_name fields are elided: they are derived by the
abstract metadata extractor and never influence score, filtering or order. -/
structure ContextEntry where
  content : String
  score : ℚ
  source : Option String
deriving Repr, DecidableEq

/-- The per-candidate body of the re-ranking loop (src/search_knowledge.py
lines 157-185): requirement boost, list-shape boost, exclusion penalty, then
the source adjustment, in the exact source order. `em` is the abstracted
`extract_metadata` source component. -/
def mkEntry (em : String → Option String) (intent : QueryIntent) (r : Candidate) : ContextEntry :=
  let content := r.content
  let b0 := r.score
  let b1 := if requirement_indicators.any (fun t => pyIn t (pyLower content)) then b0 * (3/2) else b0
  let b2 := if list_markers.any (fun m => pyIn m content) then b1 * (3/2) else b1
  let b3 := if !intent.exclude_terms.isEmpty
               && intent.exclude_terms.any (fun t => pyIn (pyLower t) (pyLower content))
            then b2 * (3/10) else b2
  { content := content
    score := adjust_score_by_source b3 (em content) (some content) intent.is_reclaim_query
    source := em content }

/-- The descending-score order used by `context.sort(key=..., reverse=True)`. -/
def scoreDesc (a b : ContextEntry) : Prop := b.score ≤ a.score

instance : DecidableRel scoreDesc := fun a b => inferInstanceAs (Decidable (b.score ≤ a.score))

instance : IsTotal ContextEntry scoreDesc := ⟨fun a b => le_total b.score a.score⟩

instance : IsTrans ContextEntry scoreDesc := ⟨fun _ _ _ h1 h2 => le_trans h2 h1⟩

/-- The context list right after the loop: every candidate mapped through the
scoring body, keeping only entries with positive score
(src/search_knowledge.py lines 192-194). -/
def filteredEntries (em : String → Option String) (intent : QueryIntent)
    (results : List Candidate) : List ContextEntry :=
  (results.map (mkEntry em intent)).filter (fun e => decide (0 < e.score))

/-- The context handed to the answer-synthesis call: stable sort by
descending adjusted score, then truncation to the first 8
(src/search_knowledge.py lines 196-198). `List.insertionSort scoreDesc` puts
an element before an existing one exactly when the existing score is at most
the new one, so equal scores keep their original relative order: it is a
stable descending sort, agreeing with the Python stable `list.sort`. -/
def buildContext (em : String → Option String) (intent : QueryIntent)
    (results : List Candidate) : List ContextEntry :=
  ((filteredEntries em intent results).insertionSort scoreDesc).take 8

/-- A raw Slack export record; each field models `message.get(key)`, so an
absent key is `none` (an empty string value stays `some ""`, which Python
distinguishes only through its falsiness checks). -/
structure SlackMsg where
  text : Option String
  channel : Option String
  ts : Option String
  thread_ts : Option String
  user : Option String
deriving Repr, DecidableEq

/-- The processed-message dict built by `process_message`
(src/process_slack_data.py lines 26-43), fields flattened. -/
structure PMsg where
  content : String
  channel : String
  timestamp : String
  thread_ts : String
  user : String
  original_language : String
  source : Option String
deriving Repr, DecidableEq

/-- The channel-keyword source tagging of `process_message`
(src/process_slack_data.py lines 37-43). -/
def chan_source (channel : String) : Option String :=
  if pyIn "product-changes" channel then some "product-changes"
  else if pyIn "help" channel then some "help"
  else if pyIn "customer-success" channel then some "customer-success"
  else none

/-- `process_message` (src/process_slack_data.py lines 12-45): empty or
missing text yields no item; otherwise the content is translated when not
detected as English. -/
def process_message (ld : String → Option String) (oracle : String → String → String)
    (msg : SlackMsg) : Option PMsg :=
  match msg.text with
  | none => none
  | some t =>
    if t == "" then none
    else
      let lang := detect_language ld t
      let content := if lang != "English" then (translate_text ld oracle t "English").1 else t
      some { content := content
             channel := msg.channel.getD ""
             timestamp := msg.ts.getD ""
             thread_ts := msg.thread_ts.getD (msg.ts.getD "")
             user := msg.user.getD ""
             original_language := lang
             source := chan_source (msg.channel.getD "") }

/-- `process_conversations` (src/process_slack_data.py lines 97-110): skips
records whose processing produced no item. Non-dict records, which the
source also skips, are outside this typed embedding. -/
def process_conversations (ld : String → Option String) (oracle : String → String → String)
    (convs : List SlackMsg) : List PMsg :=
  convs.filterMap (process_message ld oracle)

/-- A value stored in the per-thread accumulator dict of
`group_messages_by_thread`. The dict constructor is the shape the final
formatting step expects under the key metadata; the loop never stores one. -/
inductive TVal where
  | s (v : String)
  | msgs (v : List PMsg)
  | uset (v : List String)
  | dict (v : List (String × TVal))

/-- Python dict lookup over an insertion-ordered association list. -/
def lookupD {α : Type} (k : String) : List (String × α) → Option α
  | [] => none
  | (k', v) :: rest => if k' == k then some v else lookupD k rest

/-- Python dict assignment over an insertion-ordered association list. -/
def setD {α : Type} (k : String) (v : α) : List (String × α) → List (String × α)
  | [] => [(k, v)]
  | (k', v') :: rest => if k' == k then (k, v) :: rest else (k', v') :: setD k v rest

/-- Python `set.add` on a set modelled as its insertion-ordered support list. -/
def setAdd (x : String) (s : List String) : List String :=
  if s.contains x then s else s ++ [x]

/-- The thread-accumulator literal of src/process_slack_data.py lines 56-61,
as the association list of its four keys. -/
def initAcc (tts timestamp : String) : List (String × TVal) :=
  [("thread_ts", TVal.s tts), ("messages", TVal.msgs []),
   ("timestamp", TVal.s timestamp), ("participants", TVal.uset [])]

/-- `threads[thread_ts]['messages'].append(processed)`: a missing key or a
wrong shape would raise, modelled as `none`. -/
def appendMsg (p : PMsg) (acc : List (String × TVal)) : Option (List (String × TVal)) :=
  match lookupD "messages" acc with
  | some (TVal.msgs ms) => some (setD "messages" (TVal.msgs (ms ++ [p])) acc)
  | _ => none

/-- `threads[thread_ts]['participants'].add(user)`. -/
def addParticipant (u : String) (acc : List (String × TVal)) :
    Option (List (String × TVal)) :=
  match lookupD "participants" acc with
  | some (TVal.uset s) => some (setD "participants" (TVal.uset (setAdd u s)) acc)
  | _ => none

/-- One iteration of the grouping loop (src/process_slack_data.py lines
51-64). `process_message` may return `None`; the source immediately
subscripts it, which raises TypeError, modelled as `none`. -/
def threadStep (ld : String → Option String) (oracle : String → String → String)
    (threads : List (String × List (String × TVal))) (msg : SlackMsg) :
    Option (List (String × List (String × TVal))) :=
  (process_message ld oracle msg).bind fun p =>
    let tts := p.thread_ts
    let threads1 := if (lookupD tts threads).isSome then threads
                    else setD tts (initAcc tts p.timestamp) threads
    (lookupD tts threads1).bind fun acc =>
      (appendMsg p acc).bind fun acc1 =>
        (addParticipant p.user acc1).map fun acc2 =>
          setD tts acc2 threads1

/-- The grouping loop over all messages, in order. -/
def buildThreads (ld : String → Option String) (oracle : String → String → String)
    (messages : List SlackMsg) : Option (List (String × List (String × TVal))) :=
  messages.foldlM (threadStep ld oracle) []

/-- The record produced for one thread by the final list comprehension
(src/process_slack_data.py lines 67-76). -/
structure ThreadRec where
  content : String
  thread_ts : String
  timestamp : String
  participants : List String
  message_count : Nat
  source : String

/-- Reads a string-valued entry of the accumulator. -/
def asS : Option TVal → Option String
  | some (TVal.s v) => some v
  | _ => none

/-- Reads the message-list entry of the accumulator. -/
def asMsgs : Option TVal → Option (List PMsg)
  | some (TVal.msgs v) => some v
  | _ => none

/-- Reads the participants entry of the accumulator. -/
def asUset : Option TVal → Option (List String)
  | some (TVal.uset v) => some v
  | _ => none

/-- Reads a nested-dict entry of the accumulator. -/
def asDict : Option TVal → Option (List (String × TVal))
  | some (TVal.dict v) => some v
  | _ => none

/-- The `"{user}: {content}"` join of a thread content
(src/process_slack_data.py line 68). -/
def joinLines (ms : List PMsg) : String :=
  String.intercalate "\n" (ms.map (fun m => m.user ++ ": " ++ m.content))

/-- Formats one accumulated thread (src/process_slack_data.py lines 67-76).
The source reads the thread dict under the key metadata and then the key
source inside it; the accumulator holds no metadata key, so this lookup
raises KeyError on every thread, modelled as `none`. -/
def formatThread (acc : List (String × TVal)) : Option ThreadRec :=
  match asMsgs (lookupD "messages" acc), asS (lookupD "thread_ts" acc),
        asS (lookupD "timestamp" acc), asUset (lookupD "participants" acc),
        (asDict (lookupD "metadata" acc)).bind (fun d => asS (lookupD "source" d)) with
  | some ms, some tts, some tstamp, some parts, some src =>
      some { content := joinLines ms, thread_ts := tts, timestamp := tstamp,
             participants := parts, message_count := ms.length, source := src }
  | _, _, _, _, _ => none

/-- `group_messages_by_thread` (src/process_slack_data.py lines 47-76):
builds the thread dict, then formats every thread value. -/
def group_messages_by_thread (ld : String → Option String)
    (oracle : String → String → String) (messages : List SlackMsg) :
    Option (List ThreadRec) :=
  (buildThreads ld oracle messages).bind fun threads =>
    (threads.map Prod.snd).mapM formatThread

/-- Claim C6's failing input: one well-formed help-channel message. -/
def msgHelp : SlackMsg :=
  { text := some "hi", channel := some "help", ts := some "1",
    thread_ts := none, user := some "u1" }

/-- Claim C7's failing input: the Scenario B record, an empty text in the
help channel. -/
def msgEmptyHelp : SlackMsg :=
  { text := some "", channel := some "help", ts := some "1",
    thread_ts := none, user := some "u" }

/-! ## Theorems -/

/-- Claim C1: when the policy flag is true, `adjust_score_by_source` returns
exactly 0 if the content contains the thread-reference marker and twice the
score otherwise; when the flag is false it multiplies by the fixed trust
table (official_document two, product-changes 1.75, help 1.25,
customer-success 1, any other or unset source 1). -/
theorem adjust_score_by_source_spec (s : ℚ) (source : Option String)
    (content : Option String) (flag : Bool) :
    adjust_score_by_source s source content flag =
      if flag then
        (if pyIn "\"thread_ts\":" (pyStr content) then 0 else s * 2)
      else
        s * (if source = some "official_document" then 2
             else if source = some "product-changes" then 7/4
             else if source = some "help" then 5/4
             else if source = some "customer-success" then 1
             else 1) := by
  cases flag with
  | true => simp [adjust_score_by_source]
  | false =>
    simp only [adjust_score_by_source, Bool.false_eq_true, if_false]
    cases source with
    | none => simp [dictGetQ]
    | some str =>
      by_cases h1 : str = "official_document"
      · subst h1; simp [dictGetQ, source_multipliers]
      · by_cases h2 : str = "product-changes"
        · subst h2; simp [dictGetQ, source_multipliers]
        · by_cases h3 : str = "help"
          · subst h3; simp [dictGetQ, source_multipliers]
          · by_cases h4 : str = "customer-success"
            · subst h4; simp [dictGetQ, source_multipliers]
            · have e1 : ("official_document" == str) = false :=
                beq_eq_false_iff_ne.mpr (fun h => h1 h.symm)
              have e2 : ("product-changes" == str) = false :=
                beq_eq_false_iff_ne.mpr (fun h => h2 h.symm)
              have e3 : ("help" == str) = false :=
                beq_eq_false_iff_ne.mpr (fun h => h3 h.symm)
              have e4 : ("customer-success" == str) = false :=
                beq_eq_false_iff_ne.mpr (fun h => h4 h.symm)
              simp [dictGetQ, source_multipliers, List.find?, e1, e2, e3, e4, h1, h2, h3, h4]

/-- Claim C5: a JSON parse failure is not fatal; the degraded intent copies
the query into main_concept and search_query, has no exclude terms, and
computes the policy flag by a case-insensitive test for the three fixed
keywords. Totality of `analyze_query` is the no-error part of the claim. -/
theorem fallback_intent_spec (q : String) :
    analyze_query none q =
      { main_concept := q
        search_query := q
        exclude_terms := []
        is_reclaim_query :=
          (["reclaim", "dispute", "chargeback"].any fun k => pyIn k (pyLower q)) } := by
  simp [analyze_query, fallback_intent, List.any, Bool.or_assoc]

/-- Claim C4, counterexample: for the query of Scenario A the fallback does
not resolve the policy flag to true, because the word exceptions is not one
of the three fallback keywords. -/
theorem fallback_policy_counterexample :
    ¬ ((analyze_query none "what are exceptions for plumbers?").is_reclaim_query = true) := by
  decide

/-- Claim C4, amended: under the JSON-parse fallback the query of Scenario A
resolves the policy flag to false (exceptions is not a fallback trigger
keyword); a query containing one of the keywords reclaim, dispute,
chargeback resolves to true. -/
theorem fallback_policy_amended :
    (analyze_query none "what are exceptions for plumbers?").is_reclaim_query = false ∧
    (analyze_query none "what are reclaim exceptions for plumbers?").is_reclaim_query = true := by
  constructor
  · decide
  · decide

/-- Claim C3, counterexample: a candidate whose content has a requirement
indicator and an excluded term, but also a list marker (the hyphen), gets
the extra list-shape boost: its multiplier relative to the source-adjusted
base is 27/40 = 0.675, not 9/20 = 0.45. -/
theorem scenario_d_counterexample :
    ¬ ((mkEntry (fun _ => none)
          { main_concept := "q", search_query := "q", exclude_terms := ["review"],
            is_reclaim_query := false }
          { content := "- need review", score := 1 }).score
        = (9/20) * adjust_score_by_source 1 none (some "- need review") false) := by
  have hreq : requirement_indicators.any (fun t => pyIn t (pyLower "- need review")) = true := by
    decide
  have hmk : list_markers.any (fun m => pyIn m "- need review") = true := by decide
  have hexc : (["review"] : List String).any
      (fun t => pyIn (pyLower t) (pyLower "- need review")) = true := by decide
  have hth : pyIn "\"thread_ts\":" (pyStr (some "- need review")) = false := by decide
  simp [mkEntry, hreq, hmk, hexc, hth, adjust_score_by_source, dictGetQ, source_multipliers]
  norm_num

/-- Claim C3, amended: for a candidate whose content contains a requirement
indicator phrase and at least one exclude term but no list marker, the
penalty applies exactly once however many exclude terms match, and the final
score is 9/20 = 0.45 times the source-adjusted raw score. -/
theorem scenario_d_amended (em : String → Option String) (xt : List String)
    (mc sq : String) (flag : Bool) (c : Candidate)
    (hreq : requirement_indicators.any (fun t => pyIn t (pyLower c.content)) = true)
    (hexc : xt.any (fun t => pyIn (pyLower t) (pyLower c.content)) = true)
    (hmk : list_markers.any (fun m => pyIn m c.content) = false) :
    (mkEntry em { main_concept := mc, search_query := sq, exclude_terms := xt,
                  is_reclaim_query := flag } c).score
      = (9/20) * adjust_score_by_source c.score (em c.content) (some c.content) flag := by
  have hne : xt.isEmpty = false := by
    cases xt with
    | nil => simp at hexc
    | cons a l => rfl
  simp only [mkEntry, hreq, hexc, hmk, hne, if_true, if_false, Bool.not_false, Bool.and_self,
    Bool.true_and, Bool.and_true, if_pos, Bool.false_eq_true]
  cases flag with
  | true =>
    by_cases hm : pyIn "\"thread_ts\":" (pyStr (some c.content)) = true
    · simp [adjust_score_by_source, hm]
    · simp only [Bool.not_eq_true] at hm
      simp [adjust_score_by_source, hm]
      ring
  | false =>
    simp [adjust_score_by_source]
    ring

/-- Claim C3, witness for the amended theorem at a concrete candidate. -/
theorem scenario_d_amended_witness :
    (mkEntry (fun _ => none)
        { main_concept := "q", search_query := "q", exclude_terms := ["review"],
          is_reclaim_query := false }
        { content := "need review", score := 2 }).score
      = (9/20) * adjust_score_by_source 2 none (some "need review") false :=
  scenario_d_amended (fun _ => none) ["review"] "q" "q" false
    { content := "need review", score := 2 } (by decide) (by decide) (by decide)

/-- Inserting into a list by `scoreDesc` commutes with filtering on a fixed
score value: the insertion point of an element lies strictly after every
element of larger score and strictly before every element of smaller score,
so the fibre of any single score is unchanged up to the cons. -/
theorem filter_score_orderedInsert (s : ℚ) (e : ContextEntry) (l : List ContextEntry) :
    (l.orderedInsert scoreDesc e).filter (fun x => decide (x.score = s)) =
      ((e :: l).filter (fun x => decide (x.score = s))) := by
  induction l with
  | nil => rfl
  | cons b t ih =>
    by_cases hr : scoreDesc e b
    · rw [List.orderedInsert, if_pos hr]
    · rw [List.orderedInsert, if_neg hr]
      have hlt : e.score < b.score := not_le.mp hr
      by_cases hb : b.score = s <;> by_cases he : e.score = s
      · exact absurd (hb.trans he.symm) (ne_of_gt hlt)
      · simp [List.filter_cons, hb, he, ih]
      · simp [List.filter_cons, hb, he, ih]
      · simp [List.filter_cons, hb, he, ih]

/-- Stability of the descending insertion sort: the sub-sequence of entries
carrying one given score is exactly the same, in the same order, before and
after sorting. -/
theorem filter_score_insertionSort (s : ℚ) (l : List ContextEntry) :
    (l.insertionSort scoreDesc).filter (fun x => decide (x.score = s)) =
      l.filter (fun x => decide (x.score = s)) := by
  induction l with
  | nil => rfl
  | cons a t ih =>
    rw [List.insertionSort, filter_score_orderedInsert]
    simp [List.filter_cons, ih]

/-- Claim C2: the context handed to the answer-synthesis call has at most 8
entries, is sorted by descending adjusted score, ties keep the original
candidate order (for each score value the retained entries are a leading
segment of the original fibre), and when fewer than 8 entries survive the
positive-score filter the context is a permutation-free copy of all of them
(a permutation, and by the other parts the stable descending reordering).
The pipeline is a total function, so no input errors. -/
theorem context_invariants (em : String → Option String) (intent : QueryIntent)
    (results : List Candidate) :
    (buildContext em intent results).length ≤ 8 ∧
    (buildContext em intent results).Pairwise (fun a b => b.score ≤ a.score) ∧
    (∀ s : ℚ, (buildContext em intent results).filter (fun x => decide (x.score = s)) <+:
        (filteredEntries em intent results).filter (fun x => decide (x.score = s))) ∧
    ((filteredEntries em intent results).length < 8 →
      (buildContext em intent results).Perm (filteredEntries em intent results)) := by
  refine ⟨List.length_take_le 8 _, ?_, ?_, ?_⟩
  · exact (List.sorted_insertionSort scoreDesc _).sublist
      (List.take_sublist 8 _) |>.imp (fun h => h)
  · intro s
    have hsplit := List.take_append_drop 8
      ((filteredEntries em intent results).insertionSort scoreDesc)
    have : (filteredEntries em intent results).filter (fun x => decide (x.score = s)) =
        (buildContext em intent results).filter (fun x => decide (x.score = s)) ++
        ((((filteredEntries em intent results).insertionSort scoreDesc).drop 8).filter
          (fun x => decide (x.score = s))) := by
      rw [buildContext, ← List.filter_append, hsplit, filter_score_insertionSort]
    rw [this]
    exact List.prefix_append _ _
  · intro hlen
    have hle : ((filteredEntries em intent results).insertionSort scoreDesc).length ≤ 8 := by
      rw [List.length_insertionSort]
      exact le_of_lt hlen
    rw [buildContext, List.take_of_length_le hle]
    exact List.perm_insertionSort scoreDesc _

/-- Claim C2, witness: on two concrete candidates both survive the filter,
and the context is a permutation of both. -/
theorem context_invariants_witness :
    (buildContext (fun _ => none)
        { main_concept := "q", search_query := "q", exclude_terms := [], is_reclaim_query := false }
        [{ content := "alpha", score := 1 }, { content := "beta", score := 2 }]).Perm
      (filteredEntries (fun _ => none)
        { main_concept := "q", search_query := "q", exclude_terms := [], is_reclaim_query := false }
        [{ content := "alpha", score := 1 }, { content := "beta", score := 2 }]) :=
  (context_invariants (fun _ => none)
      { main_concept := "q", search_query := "q", exclude_terms := [], is_reclaim_query := false }
      [{ content := "alpha", score := 1 }, { content := "beta", score := 2 }]).2.2.2
    (by
      have hm1 : list_markers.any (fun m => pyIn m "alpha") = false := by decide
      have hr1 : requirement_indicators.any (fun t => pyIn t (pyLower "alpha")) = false := by decide
      have hm2 : list_markers.any (fun m => pyIn m "beta") = false := by decide
      have hr2 : requirement_indicators.any (fun t => pyIn t (pyLower "beta")) = false := by decide
      norm_num [filteredEntries, mkEntry, hm1, hr1, hm2, hr2, adjust_score_by_source,
        dictGetQ, List.filter])

/-- Claim C10: every context entry retained for answer synthesis has strictly
positive adjusted score; zero or negative adjusted scores are silently
dropped by the strict comparison of the filter. -/
theorem context_scores_pos (em : String → Option String) (intent : QueryIntent)
    (results : List Candidate) (e : ContextEntry)
    (he : e ∈ buildContext em intent results) : 0 < e.score := by
  have h1 : e ∈ (filteredEntries em intent results).insertionSort scoreDesc :=
    List.mem_of_mem_take he
  have h2 : e ∈ filteredEntries em intent results :=
    (List.perm_insertionSort scoreDesc _).subset h1
  have h3 := (List.mem_filter.mp h2).2
  exact of_decide_eq_true h3

/-- Claim C10, witness: a concrete surviving entry has positive score. -/
theorem context_scores_pos_witness :
    0 < (ContextEntry.mk "alpha" 1 none).score :=
  context_scores_pos (fun _ => none)
    { main_concept := "q", search_query := "q", exclude_terms := [], is_reclaim_query := false }
    [{ content := "alpha", score := 1 }] (ContextEntry.mk "alpha" 1 none)
    (by
      have hm1 : list_markers.any (fun m => pyIn m "alpha") = false := by decide
      have hr1 : requirement_indicators.any (fun t => pyIn t (pyLower "alpha")) = false := by decide
      norm_num [buildContext, filteredEntries, mkEntry, hm1, hr1, adjust_score_by_source,
        dictGetQ, List.filter, List.insertionSort, List.orderedInsert])

/-- Claim C9: `detect_language` always answers one of the five supported
tags; a langdetect failure gives English, and so does any detected code
outside the five mapped codes. -/
theorem detect_language_range (ld : String → Option String) (text : String) :
    detect_language ld text ∈ (["Dutch", "German", "French", "English", "Spanish"] : List String) ∧
    (ld text = none → detect_language ld text = "English") ∧
    (∀ c, ld text = some c → c ∉ (["nl", "de", "fr", "en", "es"] : List String) →
      detect_language ld text = "English") := by
  refine ⟨?_, ?_, ?_⟩
  · cases h : ld text with
    | none => simp [detect_language, h]
    | some c =>
      by_cases h1 : c = "nl"
      · subst h1; simp [detect_language, h, dictGetStr, lang_map]
      · by_cases h2 : c = "de"
        · subst h2; simp [detect_language, h, dictGetStr, lang_map]
        · by_cases h3 : c = "fr"
          · subst h3; simp [detect_language, h, dictGetStr, lang_map]
          · by_cases h4 : c = "en"
            · subst h4; simp [detect_language, h, dictGetStr, lang_map]
            · by_cases h5 : c = "es"
              · subst h5; simp [detect_language, h, dictGetStr, lang_map]
              · have e1 : (("nl" : String) == c) = false :=
                  beq_eq_false_iff_ne.mpr (fun h' => h1 h'.symm)
                have e2 : (("de" : String) == c) = false :=
                  beq_eq_false_iff_ne.mpr (fun h' => h2 h'.symm)
                have e3 : (("fr" : String) == c) = false :=
                  beq_eq_false_iff_ne.mpr (fun h' => h3 h'.symm)
                have e4 : (("en" : String) == c) = false :=
                  beq_eq_false_iff_ne.mpr (fun h' => h4 h'.symm)
                have e5 : (("es" : String) == c) = false :=
                  beq_eq_false_iff_ne.mpr (fun h' => h5 h'.symm)
                simp [detect_language, h, dictGetStr, lang_map, List.find?,
                  e1, e2, e3, e4, e5]
  · intro h
    simp [detect_language, h]
  · intro c h hc
    simp only [List.mem_cons, List.not_mem_nil, or_false, not_or] at hc
    obtain ⟨h1, h2, h3, h4, h5⟩ := hc
    have e1 : (("nl" : String) == c) = false :=
      beq_eq_false_iff_ne.mpr (fun h' => h1 h'.symm)
    have e2 : (("de" : String) == c) = false :=
      beq_eq_false_iff_ne.mpr (fun h' => h2 h'.symm)
    have e3 : (("fr" : String) == c) = false :=
      beq_eq_false_iff_ne.mpr (fun h' => h3 h'.symm)
    have e4 : (("en" : String) == c) = false :=
      beq_eq_false_iff_ne.mpr (fun h' => h4 h'.symm)
    have e5 : (("es" : String) == c) = false :=
      beq_eq_false_iff_ne.mpr (fun h' => h5 h'.symm)
    simp [detect_language, h, dictGetStr, lang_map, List.find?, e1, e2, e3, e4, e5]

/-- Claim C9, witness: the unmapped langdetect code it gives English. -/
theorem detect_language_range_witness :
    detect_language (fun _ => some "it") "ciao" = "English" :=
  (detect_language_range (fun _ => some "it") "ciao").2.2 "it" rfl (by decide)

/-- Claim C8: `translate_text` returns the input unchanged and issues no
external call when the text is empty or whitespace-only or when the detected
language already equals the target; in particular re-normalizing an
already-English text is byte-identical. -/
theorem translate_noop (ld : String → Option String) (oracle : String → String → String)
    (text target : String)
    (h : text = "" ∨ (pyStrip text).length = 0 ∨ detect_language ld text = target) :
    translate_text ld oracle text target = (text, false) := by
  rcases h with h | h | h
  · subst h
    simp [translate_text]
  · simp [translate_text, h]
  · by_cases h0 : (text == "" || (pyStrip text).length == 0) = true
    · simp [translate_text, h0]
    · simp [translate_text, h0, h]

/-- Claim C8, witness: a whitespace-only text is returned unchanged with no
external call, whatever the detector would have said. -/
theorem translate_noop_witness :
    translate_text (fun _ => some "nl") (fun s _ => s) "  " "English" = ("  ", false) :=
  translate_noop (fun _ => some "nl") (fun s _ => s) "  " "English"
    (Or.inr (Or.inl (by decide)))

/-- Claim C6: on the failing input, grouping raises (returns no record list)
instead of producing one record whose source tag is taken from the first
processed message. The formatting step looks up the key metadata on the
thread accumulator, whose only keys are thread_ts, messages, timestamp and
participants: a KeyError on every non-empty input. -/
theorem group_thread_metadata_keyerror :
    group_messages_by_thread (fun _ => some "en") (fun s _ => s) [msgHelp] = none := by
  rfl

/-- Claim C7: on an empty-text record, `process_message` yields no item and
`process_conversations` skips it, but `group_messages_by_thread` subscripts
the `None` result and raises TypeError (no skip) — the grouping half of the
claim fails on the code. -/
theorem empty_text_skip_vs_group_error :
    process_message (fun _ => some "en") (fun s _ => s) msgEmptyHelp = none ∧
    process_conversations (fun _ => some "en") (fun s _ => s) [msgEmptyHelp] = [] ∧
    group_messages_by_thread (fun _ => some "en") (fun s _ => s) [msgEmptyHelp] = none := by
  exact ⟨rfl, rfl, rfl⟩

end Trustoo
